import Mathlib

/-!
Verification of the ACO TSP solver backend (`solver_manager.py`, `app.py`,
`config.py`, `analyze_results.py`) against its natural-language specification.

Python floats are modelled as rationals (the properties verified here involve
only exact comparisons, `min`, and field-by-field data flow), optional request
parameters (`params.get(...)`) as structures of `Option` fields, and the
WebSocket emission side effects as explicit lists of events.  The C++ core
(`aco_solver`) is not part of the repository snapshot; where a property depends
on it, the relevant core behaviour is modelled from the specification and the
definition's doc comment says so.
-/

namespace AcoBackend

/-- Local-search mode values accepted by the backend: the strings
`'none' | 'best' | 'all'` of `solver_manager.py`. -/
inductive LSMode where
  | lsNone
  | best
  | all
deriving DecidableEq, Repr

/-- Pheromone mode values (`'all' | 'best' | 'rank'`), passed through by the
backend from `params.get('pheromoneMode', 'all')`. -/
inductive PMode where
  | all
  | best
  | rank
deriving DecidableEq, Repr

/-- The `params` dictionary of a solve request: each key either absent
(`Option.none`, Python `params.get` returns `None`) or present with a value.
Numeric values are modelled as `Int`/`ℚ`. -/
structure Params where
  numAnts : Option Int := Option.none
  iterations : Option Int := Option.none
  alpha : Option ℚ := Option.none
  beta : Option ℚ := Option.none
  rho : Option ℚ := Option.none
  Q : Option ℚ := Option.none
  useConvergence : Option Bool := Option.none
  convergenceIterations : Option Int := Option.none
  useParallel : Option Bool := Option.none
  numThreads : Option Int := Option.none
  useLocalSearch : Option Bool := Option.none
  use3Opt : Option Bool := Option.none
  localSearchMode : Option LSMode := Option.none
  useElitist : Option Bool := Option.none
  elitistWeight : Option ℚ := Option.none
  pheromoneMode : Option PMode := Option.none
  rankSize : Option Int := Option.none
deriving Repr

/-- The request with no parameters supplied: every `params.get` falls back to
its default. -/
def emptyParams : Params := {}

/-- Shape of `Config.DEFAULT_PARAMS` in `config.py`. -/
structure DefaultParamsT where
  numAnts : Int
  iterations : Int
  alpha : ℚ
  beta : ℚ
  rho : ℚ
  Q : ℚ
  useParallel : Bool
  numThreads : Int
deriving Repr

/-- Translation of `Config.DEFAULT_PARAMS` (`config.py` lines 24-34). -/
def DEFAULT_PARAMS : DefaultParamsT :=
  { numAnts := 20
    iterations := 100
    alpha := 1
    beta := 2
    rho := 1/2
    Q := 100
    useParallel := true
    numThreads := 0 }

/-- Translation of `solver_manager.py` lines 61-64: `num_ants` from the request
if given, else auto-calculated as `max(10, min(100, num_cities))`. -/
def resolveNumAnts (numCities : Nat) (p : Params) : Int :=
  match p.numAnts with
  | Option.none => max 10 (min 100 (numCities : Int))
  | some n => n

/-- Translation of line 66: `params.get('iterations', Config.DEFAULT_PARAMS['iterations'])`. -/
def resolvedIterations (p : Params) : Int :=
  p.iterations.getD DEFAULT_PARAMS.iterations

/-- Translation of line 67. -/
def resolvedAlpha (p : Params) : ℚ :=
  p.alpha.getD DEFAULT_PARAMS.alpha

/-- Translation of line 68. -/
def resolvedBeta (p : Params) : ℚ :=
  p.beta.getD DEFAULT_PARAMS.beta

/-- Translation of line 69. -/
def resolvedRho (p : Params) : ℚ :=
  p.rho.getD DEFAULT_PARAMS.rho

/-- Translation of line 70. -/
def resolvedQ (p : Params) : ℚ :=
  p.Q.getD DEFAULT_PARAMS.Q

/-- Translation of line 73: `params.get('useConvergence', False)`. -/
def resolvedUseConvergence (p : Params) : Bool :=
  p.useConvergence.getD false

/-- Translation of line 74: `params.get('convergenceIterations', 200)`. -/
def resolvedConvergenceIterations (p : Params) : Int :=
  p.convergenceIterations.getD 200

/-- Translation of line 77. -/
def resolvedUseParallel (p : Params) : Bool :=
  p.useParallel.getD DEFAULT_PARAMS.useParallel

/-- Translation of line 78. -/
def resolvedNumThreads (p : Params) : Int :=
  p.numThreads.getD DEFAULT_PARAMS.numThreads

/-- Translation of line 81: `params.get('useLocalSearch', False)`. -/
def resolvedUseLocalSearch (p : Params) : Bool :=
  p.useLocalSearch.getD false

/-- Translation of `solver_manager.py` lines 89-114: resolution of the
local-search mode and the 3-opt flag, including the size-based defaults applied
when the caller omits `localSearchMode` or `use3Opt`, and the forced
`('none', off)` configuration when local search is disabled.  Returns
`(local_search_mode, use_3opt)`. -/
def resolveLocalSearch (numCities : Nat) (p : Params) : LSMode × Bool :=
  if resolvedUseLocalSearch p then
    let mode :=
      match p.localSearchMode with
      | Option.none =>
        if numCities < 100 then LSMode.best
        else if numCities < 200 then LSMode.best
        else LSMode.best
      | some m => m
    let use3opt :=
      match p.use3Opt with
      | Option.none =>
        if mode = LSMode.all then decide (numCities < 150)
        else decide (numCities < 300)
      | some b => b
    (mode, use3opt)
  else
    (LSMode.lsNone, false)

/-- Translation of lines 223-224: the argument passed to `colony.solve`,
`-1 if use_convergence else iterations`. -/
def maxIterationsArg (p : Params) : Int :=
  if resolvedUseConvergence p then -1 else resolvedIterations p

/-- Translation of lines 219-220: `setConvergenceThreshold` is called with
`convergence_iterations` exactly when `use_convergence` holds. -/
def convergenceThresholdArg (p : Params) : Option Int :=
  if resolvedUseConvergence p then some (resolvedConvergenceIterations p)
  else Option.none

/-- The graph held by `SolverManager` as the backend observes it: its city
count, validity flag (`graph.isValid()`), and city coordinates. -/
structure GraphV where
  numCities : Nat
  valid : Bool
  coords : List (ℚ × ℚ)
deriving Repr, DecidableEq

/-- One call made by `SolverManager.solve` on the core colony object, in the
order the Python code performs them (lines 148-225). -/
inductive Action where
  | createColony (numAnts : Int) (alpha beta rho Q : ℚ)
  | setUseParallel (b : Bool)
  | setNumThreads (n : Int)
  | setUseLocalSearch (b : Bool)
  | setUse3Opt (b : Bool)
  | setLocalSearchMode (m : LSMode)
  | setUseElitist (b : Bool)
  | setElitistWeight (w : ℚ)
  | setPheromoneMode (m : PMode)
  | setRankSize (n : Int)
  | initColony
  | setProgressCallback
  | setCallbackInterval (n : Nat)
  | setConvergenceThreshold (n : Int)
  | runSolve (maxIters : Int)
deriving Repr, DecidableEq

/-- Translation of `solver_manager.py` lines 143-225: the exact ordered
sequence of colony calls `solve` performs once the graph guard has passed.
`setElitistWeight` and `setRankSize` are issued only when the caller supplied
the corresponding parameter; `setConvergenceThreshold` only in convergence
mode; the callback interval is the constant 10 of line 216. -/
def colonyCallSequence (numCities : Nat) (p : Params) : List Action :=
  [Action.createColony (resolveNumAnts numCities p) (resolvedAlpha p)
      (resolvedBeta p) (resolvedRho p) (resolvedQ p),
   Action.setUseParallel (resolvedUseParallel p),
   Action.setNumThreads (resolvedNumThreads p),
   Action.setUseLocalSearch (resolvedUseLocalSearch p),
   Action.setUse3Opt (resolveLocalSearch numCities p).2,
   Action.setLocalSearchMode (resolveLocalSearch numCities p).1,
   Action.setUseElitist (p.useElitist.getD false)] ++
  (match p.elitistWeight with
   | Option.none => []
   | some w => [Action.setElitistWeight w]) ++
  [Action.setPheromoneMode (p.pheromoneMode.getD PMode.all)] ++
  (match p.rankSize with
   | Option.none => []
   | some n => [Action.setRankSize n]) ++
  [Action.initColony, Action.setProgressCallback, Action.setCallbackInterval 10] ++
  (match convergenceThresholdArg p with
   | Option.none => []
   | some k => [Action.setConvergenceThreshold k]) ++
  [Action.runSolve (maxIterationsArg p)]

/-- Error raised by the guard of `SolverManager.solve`. -/
inductive SolveError where
  | noValidGraph
deriving Repr, DecidableEq

/-- Translation of `solver_manager.py` lines 53-56 and 148-225 at the level of
colony effects: `solve` raises `RuntimeError('No valid graph loaded')` when the
graph is absent or invalid, and otherwise performs `colonyCallSequence`. -/
def solverManagerSolve (graph : Option GraphV) (p : Params) :
    Except SolveError (List Action) :=
  match graph with
  | Option.none => Except.error SolveError.noValidGraph
  | some g =>
    if g.valid then Except.ok (colonyCallSequence g.numCities p)
    else Except.error SolveError.noValidGraph

/-- The colony calls `SolverManager.solve` actually performs: none when the
guard of lines 55-56 raises (the `raise` precedes the colony construction of
line 149), otherwise the full call sequence. -/
def solvePerformedActions (graph : Option GraphV) (p : Params) : List Action :=
  match solverManagerSolve graph p with
  | Except.error _ => []
  | Except.ok acts => acts

/-- Helper for `runningMin`: `acc` is Python's `running_best`, with
`Option.none` standing for the initial `float('inf')`. -/
def runningMinGo (acc : Option ℚ) : List ℚ → List ℚ
  | [] => []
  | d :: ds =>
    let b :=
      match acc with
      | Option.none => d
      | some a => min a d
    b :: runningMinGo (some b) ds

/-- Translation of the running-minimum loop that appears twice in
`solver_manager.py` (lines 196-201 in `progress_callback` and lines 237-241 in
`solve`): `running_best = inf; for dist in l: running_best = min(running_best,
dist); append(running_best)`. -/
def runningMin (l : List ℚ) : List ℚ :=
  runningMinGo Option.none l

/-- Python's round-half-to-even on an exact rational value. -/
def roundHalfEven (q : ℚ) : ℤ :=
  if Int.fract q < 1/2 then ⌊q⌋
  else if 1/2 < Int.fract q then ⌊q⌋ + 1
  else if ⌊q⌋ % 2 = 0 then ⌊q⌋ else ⌊q⌋ + 1

/-- Python's `round(q, digits)` idealized over exact rationals. -/
def pyRound (digits : Nat) (q : ℚ) : ℚ :=
  (roundHalfEven (q * 10 ^ digits) : ℚ) / 10 ^ digits

/-- Translation of lines 190-194: the progress percentage is 0 (indeterminate)
in convergence mode and `(iteration / iterations) * 100` otherwise. -/
def progressPct (useConv : Bool) (iterations : Int) (iteration : Nat) : ℚ :=
  if useConv then 0 else ((iteration : ℚ) / (iterations : ℚ)) * 100

/-- Payload of one `'progress'` WebSocket event (lines 204-212). -/
structure ProgressPayload where
  iteration : Nat
  bestDistance : ℚ
  bestTour : List Nat
  convergenceHistory : List ℚ
  cities : List (ℚ × ℚ)
  elapsedTime : ℚ
  progress : ℚ
deriving Repr, DecidableEq

/-- Translation of `progress_callback` (lines 182-212): the payload built from
the core-supplied `(iteration, best_distance, best_tour, convergence)` plus the
manager's city coordinates and elapsed wall-clock time.  The delivered
convergence history is the running minimum of the core's snapshot. -/
def mkProgressPayload (useConv : Bool) (iterations : Int)
    (cities : List (ℚ × ℚ)) (elapsed : ℚ) (iteration : Nat)
    (bestDistance : ℚ) (bestTour : List Nat) (convergence : List ℚ) :
    ProgressPayload :=
  { iteration := iteration
    bestDistance := bestDistance
    bestTour := bestTour
    convergenceHistory := runningMin convergence
    cities := cities
    elapsedTime := pyRound 2 elapsed
    progress := pyRound 1 (progressPct useConv iterations iteration) }



/-- One entry of `Config.BENCHMARKS` in `config.py`: file name, number of
cities, and known optimal distance. -/
structure BenchmarkEntry where
  name : String
  cities : Nat
  optimal : Int
deriving Repr, DecidableEq

/-- Part 1 of the translation of `Config.BENCHMARKS` (`config.py` lines 38-140). -/
def BENCHMARKS_a : List BenchmarkEntry :=
  [{ name := "a280.tsp", cities := 280, optimal := 2579 },
   { name := "ali535.tsp", cities := 535, optimal := 202339 },
   { name := "att48.tsp", cities := 48, optimal := 10628 },
   { name := "att532.tsp", cities := 532, optimal := 27686 },
   { name := "bayg29.tsp", cities := 29, optimal := 1610 },
   { name := "bays29.tsp", cities := 29, optimal := 2020 },
   { name := "berlin52.tsp", cities := 52, optimal := 7542 },
   { name := "bier127.tsp", cities := 127, optimal := 118282 },
   { name := "brazil58.tsp", cities := 58, optimal := 25395 },
   { name := "brg180.tsp", cities := 180, optimal := 1950 },
   { name := "burma14.tsp", cities := 14, optimal := 3323 },
   { name := "ch130.tsp", cities := 130, optimal := 6110 },
   { name := "ch150.tsp", cities := 150, optimal := 6528 },
   { name := "d198.tsp", cities := 198, optimal := 15780 },
   { name := "d493.tsp", cities := 493, optimal := 35002 },
   { name := "d657.tsp", cities := 657, optimal := 48912 },
   { name := "d1291.tsp", cities := 1291, optimal := 50801 },
   { name := "d1655.tsp", cities := 1655, optimal := 62128 },
   { name := "d2103.tsp", cities := 2103, optimal := 80450 },
   { name := "dantzig42.tsp", cities := 42, optimal := 699 },
   { name := "eil51.tsp", cities := 51, optimal := 426 },
   { name := "eil76.tsp", cities := 76, optimal := 538 },
   { name := "eil101.tsp", cities := 101, optimal := 629 },
   { name := "fl417.tsp", cities := 417, optimal := 11861 },
   { name := "fl1400.tsp", cities := 1400, optimal := 20127 },
   { name := "fl1577.tsp", cities := 1577, optimal := 22249 }]

/-- Part 2 of the translation of `Config.BENCHMARKS` (`config.py` lines 38-140). -/
def BENCHMARKS_b : List BenchmarkEntry :=
  [{ name := "fl3795.tsp", cities := 3795, optimal := 28772 },
   { name := "fnl4461.tsp", cities := 4461, optimal := 182566 },
   { name := "fri26.tsp", cities := 26, optimal := 937 },
   { name := "gil262.tsp", cities := 262, optimal := 2378 },
   { name := "gr17.tsp", cities := 17, optimal := 2085 },
   { name := "gr21.tsp", cities := 21, optimal := 2707 },
   { name := "gr24.tsp", cities := 24, optimal := 1272 },
   { name := "gr48.tsp", cities := 48, optimal := 5046 },
   { name := "gr96.tsp", cities := 96, optimal := 55209 },
   { name := "gr120.tsp", cities := 120, optimal := 6942 },
   { name := "gr137.tsp", cities := 137, optimal := 69853 },
   { name := "gr202.tsp", cities := 202, optimal := 40160 },
   { name := "gr229.tsp", cities := 229, optimal := 134602 },
   { name := "gr431.tsp", cities := 431, optimal := 171414 },
   { name := "gr666.tsp", cities := 666, optimal := 294358 },
   { name := "hk48.tsp", cities := 48, optimal := 11461 },
   { name := "kroA100.tsp", cities := 100, optimal := 21282 },
   { name := "kroB100.tsp", cities := 100, optimal := 22141 },
   { name := "kroC100.tsp", cities := 100, optimal := 20749 },
   { name := "kroD100.tsp", cities := 100, optimal := 21294 },
   { name := "kroE100.tsp", cities := 100, optimal := 22068 },
   { name := "kroA150.tsp", cities := 150, optimal := 26524 },
   { name := "kroB150.tsp", cities := 150, optimal := 26130 },
   { name := "kroA200.tsp", cities := 200, optimal := 29368 },
   { name := "kroB200.tsp", cities := 200, optimal := 29437 },
   { name := "lin105.tsp", cities := 105, optimal := 14379 }]

/-- Part 3 of the translation of `Config.BENCHMARKS` (`config.py` lines 38-140). -/
def BENCHMARKS_c : List BenchmarkEntry :=
  [{ name := "lin318.tsp", cities := 318, optimal := 42029 },
   { name := "linhp318.tsp", cities := 318, optimal := 41345 },
   { name := "nrw1379.tsp", cities := 1379, optimal := 56638 },
   { name := "p654.tsp", cities := 654, optimal := 34643 },
   { name := "pa561.tsp", cities := 561, optimal := 2763 },
   { name := "pcb442.tsp", cities := 442, optimal := 50778 },
   { name := "pcb1173.tsp", cities := 1173, optimal := 56892 },
   { name := "pcb3038.tsp", cities := 3038, optimal := 137694 },
   { name := "pr76.tsp", cities := 76, optimal := 108159 },
   { name := "pr107.tsp", cities := 107, optimal := 44303 },
   { name := "pr124.tsp", cities := 124, optimal := 59030 },
   { name := "pr136.tsp", cities := 136, optimal := 96772 },
   { name := "pr144.tsp", cities := 144, optimal := 58537 },
   { name := "pr152.tsp", cities := 152, optimal := 73682 },
   { name := "pr226.tsp", cities := 226, optimal := 80369 },
   { name := "pr264.tsp", cities := 264, optimal := 49135 },
   { name := "pr299.tsp", cities := 299, optimal := 48191 },
   { name := "pr439.tsp", cities := 439, optimal := 107217 },
   { name := "pr1002.tsp", cities := 1002, optimal := 259045 },
   { name := "pr2392.tsp", cities := 2392, optimal := 378032 },
   { name := "rat99.tsp", cities := 99, optimal := 1211 },
   { name := "rat195.tsp", cities := 195, optimal := 2323 },
   { name := "rat575.tsp", cities := 575, optimal := 6773 },
   { name := "rat783.tsp", cities := 783, optimal := 8806 },
   { name := "rd100.tsp", cities := 100, optimal := 7910 },
   { name := "rd400.tsp", cities := 400, optimal := 15281 }]

/-- Part 4 of the translation of `Config.BENCHMARKS` (`config.py` lines 38-140). -/
def BENCHMARKS_d : List BenchmarkEntry :=
  [{ name := "rl1304.tsp", cities := 1304, optimal := 252948 },
   { name := "rl1323.tsp", cities := 1323, optimal := 270199 },
   { name := "rl1889.tsp", cities := 1889, optimal := 316536 },
   { name := "rl5915.tsp", cities := 5915, optimal := 565530 },
   { name := "rl5934.tsp", cities := 5934, optimal := 556045 },
   { name := "rl11849.tsp", cities := 11849, optimal := 923288 },
   { name := "si175.tsp", cities := 175, optimal := 21407 },
   { name := "si535.tsp", cities := 535, optimal := 48450 },
   { name := "si1032.tsp", cities := 1032, optimal := 92650 },
   { name := "st70.tsp", cities := 70, optimal := 675 },
   { name := "swiss42.tsp", cities := 42, optimal := 1273 },
   { name := "ts225.tsp", cities := 225, optimal := 126643 },
   { name := "tsp225.tsp", cities := 225, optimal := 3916 },
   { name := "u159.tsp", cities := 159, optimal := 42080 },
   { name := "u574.tsp", cities := 574, optimal := 36905 },
   { name := "u724.tsp", cities := 724, optimal := 41910 },
   { name := "u1060.tsp", cities := 1060, optimal := 224094 },
   { name := "u1432.tsp", cities := 1432, optimal := 152970 },
   { name := "u1817.tsp", cities := 1817, optimal := 57201 },
   { name := "u2152.tsp", cities := 2152, optimal := 64253 },
   { name := "u2319.tsp", cities := 2319, optimal := 234256 },
   { name := "vm1084.tsp", cities := 1084, optimal := 239297 },
   { name := "vm1748.tsp", cities := 1748, optimal := 336556 }]

/-- Translation of the benchmark metadata dictionary `Config.BENCHMARKS`
(`config.py` lines 38-140), in its insertion (iteration) order. -/
def BENCHMARKS : List BenchmarkEntry :=
  BENCHMARKS_a ++ BENCHMARKS_b ++ BENCHMARKS_c ++ BENCHMARKS_d

/-- Membership lookup in `Config.BENCHMARKS` (the `name in Config.BENCHMARKS`
test together with the subsequent indexing). -/
def catalogLookup (name : String) : Option BenchmarkEntry :=
  BENCHMARKS.find? (fun e => e.name = name)

/-- The reference optimality-gap formula shared by the backend and the
analysis script: `((solution - optimal) / optimal) * 100`. -/
def gapFormula (d optimal : ℚ) : ℚ :=
  ((d - optimal) / optimal) * 100

/-- Translation of `solver_manager.py` lines 245-262: the
`(optimalDistance, optimalityGap)` pair of the final result.  Both stay `None`
unless `self.benchmark_name` is truthy and a key of `Config.BENCHMARKS`; the
gap is `((best_distance - optimal_distance) / optimal_distance) * 100`,
reported rounded to 2 decimals. -/
def backendOptimalAndGap (benchmarkName : Option String) (bestDistance : ℚ) :
    Option ℚ × Option ℚ :=
  match benchmarkName with
  | Option.none => (Option.none, Option.none)
  | some name =>
    if name = "" then (Option.none, Option.none)
    else
      match catalogLookup name with
      | Option.none => (Option.none, Option.none)
      | some e =>
        let optimalDistance : ℚ := (e.optimal : ℚ)
        let optimalityGap : ℚ :=
          ((bestDistance - optimalDistance) / optimalDistance) * 100
        (some optimalDistance, some (pyRound 2 optimalityGap))

/-- Python `statistics.mean` on a nonempty list of rationals. -/
def pyMean (l : List ℚ) : ℚ :=
  l.sum / (l.length : ℚ)

/-- Python `min` on a nonempty list of rationals. -/
def pyMin (l : List ℚ) : ℚ :=
  l.min?.getD 0

/-- Translation of `analyze_results.py` `calc_stats` line 18:
`gap_avg = ((avg - optimal) / optimal) * 100` with `avg = statistics.mean(results)`. -/
def calcStatsGapAvg (results : List ℚ) (optimal : ℚ) : ℚ :=
  ((pyMean results - optimal) / optimal) * 100

/-- Translation of `analyze_results.py` `calc_stats` line 19:
`gap_best = ((best - optimal) / optimal) * 100` with `best = min(results)`. -/
def calcStatsGapBest (results : List ℚ) (optimal : ℚ) : ℚ :=
  ((pyMin results - optimal) / optimal) * 100

/-- Translation of `app.py` `list_benchmarks` (lines 42-62): filter the
catalog to the entries whose file exists on disk, sort ascending by city count
(Python `list.sort` is a stable comparison sort), and return the list together
with its length as `count`. -/
def listBenchmarks (fileExists : String → Bool) : List BenchmarkEntry × Nat :=
  let bs := BENCHMARKS.filter (fun e => fileExists e.name)
  let sorted := bs.mergeSort (fun a b => decide (a.cities ≤ b.cities))
  (sorted, sorted.length)

/-- Payload of the final `'complete'` event (`solver_manager.py` lines
253-263). -/
structure FinalResult where
  bestDistance : ℚ
  bestTour : List Nat
  convergenceHistory : List ℚ
  cities : List (ℚ × ℚ)
  elapsedTime : ℚ
  totalIterations : Nat
  benchmark : Option String
  optimalDistance : Option ℚ
  optimalityGap : Option ℚ
deriving Repr, DecidableEq

/-- Translation of `solver_manager.py` lines 227-263: the final result built
from the core's best tour and per-iteration best distances
(`colony.getConvergenceData()`).  The delivered history is the running
minimum of the iteration bests; the optimal distance and optimality gap come
from `backendOptimalAndGap`. -/
def mkFinalResult (benchmarkName : Option String) (cities : List (ℚ × ℚ))
    (elapsed : ℚ) (bestDistance : ℚ) (bestTour : List Nat)
    (iterationBests : List ℚ) : FinalResult :=
  { bestDistance := bestDistance
    bestTour := bestTour
    convergenceHistory := runningMin iterationBests
    cities := cities
    elapsedTime := pyRound 2 elapsed
    totalIterations := iterationBests.length
    benchmark := benchmarkName
    optimalDistance := (backendOptimalAndGap benchmarkName bestDistance).1
    optimalityGap := (backendOptimalAndGap benchmarkName bestDistance).2 }

/-- Error classes raised by `SolverManager.load_benchmark` (`solver_manager.py`
lines 25-51): `FileNotFoundError` when the benchmark file is missing,
`ValueError` when the loaded graph is invalid. -/
inductive LoadError where
  | fileNotFound
  | valueError
deriving Repr, DecidableEq

/-- Data returned by a successful `load_benchmark`. -/
structure LoadResult where
  numCities : Nat
  cities : List (ℚ × ℚ)
  benchmark : String
deriving Repr, DecidableEq

/-- Translation of `SolverManager.load_benchmark` (lines 25-51): raise
`FileNotFoundError` when the file does not exist, load the graph, raise
`ValueError` when it is invalid, otherwise record coordinates and name. -/
def load_benchmark (fileExists : Bool) (g : GraphV) (name : String) :
    Except LoadError LoadResult :=
  if !fileExists then Except.error LoadError.fileNotFound
  else if !g.valid then Except.error LoadError.valueError
  else Except.ok { numCities := g.numCities, cities := g.coords, benchmark := name }

/-- Classes of `'error'` event messages emitted by `handle_solve` in `app.py`:
lines 130 (`'No benchmark specified'`), 158 (`'Benchmark not found: ...'`),
162 (`'Invalid data: ...'`), 166 (`'Server error: ...'`). -/
inductive ErrorKind where
  | noBenchmark
  | benchmarkNotFound
  | invalidData
  | serverError
deriving Repr, DecidableEq

/-- One WebSocket event emitted by `handle_solve` (`app.py` lines 121-166). -/
inductive Event where
  | loadedEv (benchmark : String) (numCities : Nat) (cities : List (ℚ × ℚ))
  | completeEv (result : FinalResult)
  | errorEv (kind : ErrorKind)
deriving Repr, DecidableEq

/-- Translation of `handle_solve` (`app.py` lines 121-166) at the level of
emitted events: a missing or falsy benchmark name yields one
`'No benchmark specified'` error; `FileNotFoundError` from `load_benchmark`
yields one `'Benchmark not found'` error; `ValueError` yields one
`'Invalid data'` error; otherwise `'loaded'` is emitted, the solver runs, and
either `'complete'` follows or (on any exception from `solve`, e.g. the
`RuntimeError` of the graph guard) one `'Server error'` error.  The
`'progress'` events emitted during `solve` flow through
`self.socketio.emit` in `progress_callback`, not this handler. -/
def handleSolve (benchmark : Option String) (fileExists : Bool) (g : GraphV)
    (p : Params) (result : FinalResult) : List Event :=
  match benchmark with
  | Option.none => [Event.errorEv ErrorKind.noBenchmark]
  | some name =>
    if name = "" then [Event.errorEv ErrorKind.noBenchmark]
    else
      match load_benchmark fileExists g name with
      | Except.error LoadError.fileNotFound =>
        [Event.errorEv ErrorKind.benchmarkNotFound]
      | Except.error LoadError.valueError =>
        [Event.errorEv ErrorKind.invalidData]
      | Except.ok r =>
        Event.loadedEv r.benchmark r.numCities r.cities ::
        (match solverManagerSolve (some g) p with
         | Except.error _ => [Event.errorEv ErrorKind.serverError]
         | Except.ok _ => [Event.completeEv result])

/-- Modelled from the spec: the C++ core (`AntColony::solve`, not part of the
repository snapshot) emits "a progress event" "every I iterations", and
"callbacks are invoked no more often than every I iterations and are
serialized in iteration order".  The schedule is modelled as the callback
firing at the iterations whose 1-based index is a multiple of the interval. -/
def callbackSchedule (interval total : Nat) : List Nat :=
  (List.range total).filter (fun it => (it + 1) % interval = 0)

/-- Progress events actually delivered during a solve: the core invokes the
backend's `progress_callback` at each scheduled iteration, and the callback
(`solver_manager.py` lines 182-212) emits a payload unless `is_running` has
been cleared (`if not self.is_running: return`).  `bestD`, `bestT` and `conv`
give the core's global-best distance, global-best sequence and convergence
snapshot at each iteration; `elapsed` the wall clock. -/
def emittedProgress (sched : List Nat) (running : Nat → Bool) (useConv : Bool)
    (iterations : Int) (cities : List (ℚ × ℚ)) (elapsed : Nat → ℚ)
    (bestD : Nat → ℚ) (bestT : Nat → List Nat) (conv : Nat → List ℚ) :
    List ProgressPayload :=
  (sched.filter running).map
    (fun it =>
      mkProgressPayload useConv iterations cities (elapsed it) it (bestD it)
        (bestT it) (conv it))

/-- The two flags relevant to cancellation: the manager's Python-side
`is_running` and the core's own cancellation flag (the one `Colony::cancel()`
would set). -/
structure CancelSystem where
  is_running : Bool
  colonyCancelRequested : Bool
deriving Repr, DecidableEq

/-- Translation of `SolverManager.stop` (`solver_manager.py` lines 265-267):
it sets `self.is_running = False` and performs no call on the colony — in
particular it never requests the core's own cancellation. -/
def managerStop (s : CancelSystem) : CancelSystem :=
  { s with is_running := false }

/-- Translation of `handle_cancel` (`app.py` lines 202-207): the `'cancel'`
WebSocket event calls `solver_manager.stop()`. -/
def handleCancel (s : CancelSystem) : CancelSystem :=
  managerStop s

/-- State of the flags when `solve` starts (`solver_manager.py` line 180 sets
`is_running = True`; the core flag is clear). -/
def solveStartState : CancelSystem :=
  { is_running := true, colonyCancelRequested := false }

/-- Helper for `solveWithCancel`: remaining iterations, current iteration
index, current flag state. -/
def solveLoopGo (cancelAt : Nat) : Nat → Nat → CancelSystem → Nat
  | 0, _, _ => 0
  | n + 1, it, s =>
    let s' := if it = cancelAt then handleCancel s else s
    if s'.colonyCancelRequested then 0
    else 1 + solveLoopGo cancelAt n (it + 1) s'

/-- Modelled from the spec for the core loop, composed with the translated
backend handlers: "`solve` polls a cancellation flag between iterations", the
flag being the core's own (`cancel()` "requests termination").  The external
`'cancel'` event is delivered before iteration `cancelAt` and processed by the
translated `handleCancel`.  Returns the number of iterations the core
executes out of `maxIters`. -/
def solveWithCancel (maxIters cancelAt : Nat) (s : CancelSystem) : Nat :=
  solveLoopGo cancelAt maxIters 0 s

/-- Request with only `iterations = -1` supplied. -/
def negIterParams : Params := { emptyParams with iterations := some (-1) }

/-- Request with only `useConvergence = true` supplied. -/
def convParams : Params := { emptyParams with useConvergence := some true }

/-- Request enabling local search with mode `'all'`, leaving `use3Opt` unset. -/
def lsAllParams : Params :=
  { emptyParams with
    useLocalSearch := some true
    localSearchMode := some LSMode.all }

/-- Request enabling local search with everything else unset. -/
def lsOnParams : Params := { emptyParams with useLocalSearch := some true }

/-- Request disabling local search while asking for 3-opt and mode `'all'`. -/
def lsOffParams : Params :=
  { emptyParams with
    useLocalSearch := some false
    use3Opt := some true
    localSearchMode := some LSMode.all }

/-- A benchmark name that is not in the catalog (used as concrete input). -/
def missingName : String := "missing.tsp"

/-- The catalog's first entry, used as a concrete lookup input. -/
def a280entry : BenchmarkEntry := { name := "a280.tsp", cities := 280, optimal := 2579 }

/-- An invalid graph as `load_benchmark` would observe it. -/
def invalidGraph : GraphV := { numCities := 0, valid := false, coords := [] }

/-- A final-result record for exercising `handle_solve` on concrete inputs. -/
def emptyFinalResult : FinalResult := mkFinalResult Option.none [] 0 0 [] []

/-! Theorems.  Each claim of the specification review is settled by one main
theorem below, with shared helper lemmas. -/

theorem modeDefault_eq_best (N : Nat) :
    (if N < 100 then LSMode.best else if N < 200 then LSMode.best
     else LSMode.best) = LSMode.best := by
  split
  · rfl
  · split <;> rfl

theorem resolveLocalSearch_auto (N : Nat) (p : Params)
    (hLS : resolvedUseLocalSearch p = true) (h3 : p.use3Opt = Option.none) :
    resolveLocalSearch N p =
      (p.localSearchMode.getD LSMode.best,
       if p.localSearchMode.getD LSMode.best = LSMode.all
       then decide (N < 150) else decide (N < 300)) := by
  rcases hm : p.localSearchMode with _ | m <;>
    simp [resolveLocalSearch, hLS, h3, hm, modeDefault_eq_best N]

theorem runningMinGo_some_get (l : List ℚ) : ∀ (a : ℚ) (k : Nat), k < l.length →
    (runningMinGo (some a) l)[k]? = some ((l.take (k + 1)).foldl min a) := by
  induction l with
  | nil => intro a k h; simp at h
  | cons d ds ih =>
    intro a k h
    cases k with
    | zero => simp [runningMinGo]
    | succ k =>
      rw [runningMinGo]
      simp only [List.getElem?_cons_succ]
      rw [ih (min a d) k (by simpa using h)]
      simp

theorem runningMin_get (l : List ℚ) (k : Nat) (h : k < l.length) :
    (runningMin l)[k]? = (l.take (k + 1)).min? := by
  cases l with
  | nil => simp at h
  | cons d ds =>
    cases k with
    | zero => simp [runningMin, runningMinGo, List.min?]
    | succ k =>
      rw [runningMin, runningMinGo]
      simp only [List.getElem?_cons_succ]
      rw [runningMinGo_some_get ds d k (by simpa using h)]
      simp [List.min?]

theorem runningMinGo_some_chain (l : List ℚ) : ∀ a : ℚ,
    List.Chain' (fun x y => y ≤ x) (runningMinGo (some a) l) ∧
    ∀ x ∈ (runningMinGo (some a) l).head?, x ≤ a := by
  induction l with
  | nil => intro a; simp [runningMinGo]
  | cons d ds ih =>
    intro a
    rw [runningMinGo]
    refine ⟨List.chain'_cons'.mpr ⟨fun b hb => (ih (min a d)).2 b hb, (ih (min a d)).1⟩, ?_⟩
    intro x hx
    simp at hx
    subst hx
    exact min_le_left _ _

theorem runningMin_chain (l : List ℚ) :
    List.Chain' (fun x y => y ≤ x) (runningMin l) := by
  cases l with
  | nil => simp [runningMin, runningMinGo]
  | cons d ds =>
    rw [runningMin, runningMinGo]
    exact List.chain'_cons'.mpr
      ⟨fun b hb => (runningMinGo_some_chain ds d).2 b hb, (runningMinGo_some_chain ds d).1⟩

theorem solveLoopGo_no_core_flag (c : Nat) : ∀ (n it : Nat) (s : CancelSystem),
    s.colonyCancelRequested = false → solveLoopGo c n it s = n := by
  intro n
  induction n with
  | zero => intro it s _; rfl
  | succ n ih =>
    intro it s h
    rw [solveLoopGo]
    have h' : (if it = c then handleCancel s else s).colonyCancelRequested = false := by
      split <;> simp [handleCancel, managerStop, h]
    simp only [h', Bool.false_eq_true, if_false]
    rw [ih (it + 1) _ h', Nat.add_comm]

/-- C2: contrary to the claim, the external `'cancel'` event does not bound the
running solve.  `handle_cancel` only calls `SolverManager.stop`, which clears
the Python-side `is_running` flag and never sets the core's cancellation flag;
since the core loop polls only its own flag, the solve executes all `maxIters`
iterations no matter when the cancel event arrives — in particular all 3
iterations of a 3-iteration solve cancelled before iteration 0, instead of at
most the current iteration. -/
theorem c2_cancel_never_reaches_core :
    (∀ maxIters cancelAt : Nat,
      solveWithCancel maxIters cancelAt solveStartState = maxIters) ∧
    solveWithCancel 3 0 solveStartState = 3 ∧
    (handleCancel solveStartState).colonyCancelRequested = false ∧
    (handleCancel solveStartState).is_running = false :=
  ⟨fun m c => solveLoopGo_no_core_flag c m 0 solveStartState rfl, by decide, rfl, rfl⟩

/-- C1: the convergence history delivered to the client — the
`convergenceHistory` field of every `'progress'` payload and of the final
`'complete'` result — is the running minimum of the core's per-iteration best
distances: its `k`-th element is the minimum of the first `k + 1` iteration
bests, and consecutive delivered values never increase. -/
theorem c1_delivered_history_is_running_min (useConv : Bool) (iterations : Int)
    (cities : List (ℚ × ℚ)) (elapsed bd : ℚ) (bt : List Nat) (it : Nat)
    (bn : Option String) (conv : List ℚ) (k : Nat) (h : k < conv.length) :
    ((mkProgressPayload useConv iterations cities elapsed it bd bt
        conv).convergenceHistory = runningMin conv ∧
      (runningMin conv)[k]? = (conv.take (k + 1)).min? ∧
      List.Chain' (fun x y => y ≤ x)
        (mkProgressPayload useConv iterations cities elapsed it bd bt
          conv).convergenceHistory) ∧
    ((mkFinalResult bn cities elapsed bd bt conv).convergenceHistory =
        runningMin conv ∧
      List.Chain' (fun x y => y ≤ x)
        (mkFinalResult bn cities elapsed bd bt conv).convergenceHistory) :=
  ⟨⟨rfl, runningMin_get conv k h, runningMin_chain conv⟩,
   rfl, runningMin_chain conv⟩

/-- Witness for C1 at the concrete history `[3, 1, 2]` and index 1. -/
theorem c1_delivered_history_is_running_min_witness :
    (1 < ([3, 1, 2] : List ℚ).length) ∧
    (runningMin [3, 1, 2])[1]? = (([3, 1, 2] : List ℚ).take 2).min? :=
  ⟨by simp,
   ((c1_delivered_history_is_running_min false 100 [] 0 0 [] 0 Option.none
      [3, 1, 2] 1 (by simp)).1).2.1⟩

/-- C3 counterexample: with request parameters `{iterations: -1}` and
`useConvergence` unset, `use_convergence` resolves to `False`, yet
`colony.solve` is invoked with `max_iterations = -1` — the backend forwards
the caller's iteration count unvalidated, so "`-1` if and only if
`useConvergence` is true" fails in the only-if direction. -/
theorem c3_convergence_iff_counterexample :
    resolvedUseConvergence negIterParams = false ∧
    maxIterationsArg negIterParams = -1 ∧
    Action.runSolve (-1) ∈ colonyCallSequence 52 negIterParams := by
  refine ⟨rfl, rfl, ?_⟩
  simp [colonyCallSequence, maxIterationsArg, resolvedUseConvergence,
    resolvedIterations, negIterParams, emptyParams, convergenceThresholdArg,
    DEFAULT_PARAMS]

/-- C3 (amended): when `useConvergence` is true, `solve` first calls
`setConvergenceThreshold` with the caller's `convergenceIterations`
(default 200) and then invokes the core's solve with `max_iterations = -1`;
when `useConvergence` is false it never sets the threshold and forwards the
caller's requested iteration count (default 100) unchanged — including a
negative one. -/
theorem c3_convergence_mode_amended (p : Params) (N : Nat) :
    (resolvedUseConvergence p = true →
      maxIterationsArg p = -1 ∧
      convergenceThresholdArg p = some (p.convergenceIterations.getD 200) ∧
      [Action.setConvergenceThreshold (resolvedConvergenceIterations p),
        Action.runSolve (-1)] <:+ colonyCallSequence N p) ∧
    (resolvedUseConvergence p = false →
      maxIterationsArg p = p.iterations.getD 100 ∧
      convergenceThresholdArg p = Option.none ∧
      ∀ k, Action.setConvergenceThreshold k ∉ colonyCallSequence N p) := by
  constructor
  · intro h
    have h1 : convergenceThresholdArg p = some (resolvedConvergenceIterations p) := by
      simp [convergenceThresholdArg, h]
    have h2 : maxIterationsArg p = -1 := by simp [maxIterationsArg, h]
    refine ⟨h2, by simpa [resolvedConvergenceIterations] using h1, ?_⟩
    refine ⟨[Action.createColony (resolveNumAnts N p) (resolvedAlpha p)
        (resolvedBeta p) (resolvedRho p) (resolvedQ p),
      Action.setUseParallel (resolvedUseParallel p),
      Action.setNumThreads (resolvedNumThreads p),
      Action.setUseLocalSearch (resolvedUseLocalSearch p),
      Action.setUse3Opt (resolveLocalSearch N p).2,
      Action.setLocalSearchMode (resolveLocalSearch N p).1,
      Action.setUseElitist (p.useElitist.getD false)] ++
      (match p.elitistWeight with
       | Option.none => []
       | some w => [Action.setElitistWeight w]) ++
      [Action.setPheromoneMode (p.pheromoneMode.getD PMode.all)] ++
      (match p.rankSize with
       | Option.none => []
       | some n => [Action.setRankSize n]) ++
      [Action.initColony, Action.setProgressCallback,
        Action.setCallbackInterval 10], ?_⟩
    simp [colonyCallSequence, h1, h2]
  · intro h
    have h1 : convergenceThresholdArg p = Option.none := by
      simp [convergenceThresholdArg, h]
    refine ⟨by simp [maxIterationsArg, h, resolvedIterations, DEFAULT_PARAMS], h1, ?_⟩
    intro k
    rcases hew : p.elitistWeight with _ | w <;> rcases hrs : p.rankSize with _ | r <;>
      simp [colonyCallSequence, h1, hew, hrs]

/-- Witness for C3 (amended) in convergence mode: with `useConvergence` set
the core receives `-1` and the threshold is configured with the default 200. -/
theorem c3_convergence_mode_amended_witness :
    maxIterationsArg convParams = -1 ∧
    convergenceThresholdArg convParams =
      some (convParams.convergenceIterations.getD 200) :=
  ⟨((c3_convergence_mode_amended convParams 52).1 rfl).1,
   ((c3_convergence_mode_amended convParams 52).1 rfl).2.1⟩

/-- C4: whenever local search is enabled and the caller leaves `use3Opt`
unset, the backend enables 3-opt exactly when the city count is below 150 if
the resolved local-search mode is `'all'`, and exactly when it is below 300
otherwise; and whenever local search is disabled the core is configured with
mode `'none'` and 3-opt off, whatever `use3Opt` and `localSearchMode` say. -/
theorem c4_local_search_defaults (N : Nat) (p : Params) :
    (resolvedUseLocalSearch p = true → p.use3Opt = Option.none →
      ((resolveLocalSearch N p).1 = LSMode.all →
        ((resolveLocalSearch N p).2 = true ↔ N < 150)) ∧
      ((resolveLocalSearch N p).1 ≠ LSMode.all →
        ((resolveLocalSearch N p).2 = true ↔ N < 300))) ∧
    (resolvedUseLocalSearch p = false →
      resolveLocalSearch N p = (LSMode.lsNone, false) ∧
      Action.setLocalSearchMode LSMode.lsNone ∈ colonyCallSequence N p ∧
      Action.setUse3Opt false ∈ colonyCallSequence N p) := by
  constructor
  · intro hLS h3
    rw [resolveLocalSearch_auto N p hLS h3]
    constructor
    · intro hall
      simp only at hall
      simp [hall]
    · intro hne
      simp only at hne
      simp [if_neg hne]
  · intro h
    have h1 : resolveLocalSearch N p = (LSMode.lsNone, false) := by
      simp [resolveLocalSearch, h]
    refine ⟨h1, ?_, ?_⟩ <;>
      · rcases hew : p.elitistWeight with _ | w <;>
          rcases hrs : p.rankSize with _ | r <;>
          rcases hc : convergenceThresholdArg p with _ | k <;>
          simp [colonyCallSequence, h1, hew, hrs, hc]

/-- Witness for C4: at 100 cities with mode `'all'` requested and `use3Opt`
unset, 3-opt is enabled; at 200 cities with mode unset (resolving to
`'best'`), 3-opt is also enabled; with local search off the mode is
`'none'`. -/
theorem c4_local_search_defaults_witness :
    (resolveLocalSearch 100 lsAllParams).2 = true ∧
    (resolveLocalSearch 200 lsOnParams).2 = true ∧
    resolveLocalSearch 52 lsOffParams = (LSMode.lsNone, false) :=
  ⟨(((c4_local_search_defaults 100 lsAllParams).1 rfl rfl).1 rfl).mpr
      (by decide),
   (((c4_local_search_defaults 200 lsOnParams).1 rfl rfl).2
      (by decide)).mpr (by decide),
   ((c4_local_search_defaults 52 lsOffParams).2 rfl).1⟩

/-- C5 counterexample: with no parameters supplied and a 52-city graph
(berlin52), `solve` creates the colony with 52 ants — the auto-calculated
`max(10, min(100, num_cities))` — not the documented default of 20 ants, so
the no-parameter configuration is not independent of the city count. -/
theorem c5_default_ants_counterexample :
    resolveNumAnts 52 emptyParams = 52 ∧
    DEFAULT_PARAMS.numAnts = 20 ∧
    resolveNumAnts 52 emptyParams ≠ DEFAULT_PARAMS.numAnts ∧
    (colonyCallSequence 52 emptyParams).head? =
      some (Action.createColony (resolveNumAnts 52 emptyParams)
        (resolvedAlpha emptyParams) (resolvedBeta emptyParams)
        (resolvedRho emptyParams) (resolvedQ emptyParams)) :=
  ⟨rfl, rfl, by decide, rfl⟩

/-- C5 (amended): when the caller supplies no parameters the backend uses
iterations = 100, α = 1.0, β = 2.0, ρ = 0.5, Q = 100.0, use_parallel = true
and num_threads = 0 from `Config.DEFAULT_PARAMS`, but the ant count is
auto-calculated from the loaded graph as `max(10, min(100, N))` — it equals
the documented default 20 only for graphs whose clamped size is 20. -/
theorem c5_no_params_defaults_amended (N : Nat) :
    resolveNumAnts N emptyParams = max 10 (min 100 (N : Int)) ∧
    resolvedIterations emptyParams = 100 ∧
    resolvedAlpha emptyParams = 1 ∧
    resolvedBeta emptyParams = 2 ∧
    resolvedRho emptyParams = 1/2 ∧
    resolvedQ emptyParams = 100 ∧
    resolvedUseParallel emptyParams = true ∧
    resolvedNumThreads emptyParams = 0 :=
  ⟨rfl, rfl, rfl, rfl, rfl, rfl, rfl, rfl⟩

/-- C6: calling `SolverManager.solve` with no graph loaded, or with an invalid
graph, raises `RuntimeError('No valid graph loaded')` and performs no colony
call at all — the colony is neither constructed, initialized, nor run. -/
theorem c6_solve_without_graph (graph : Option GraphV) (p : Params)
    (h : ∀ g ∈ graph, g.valid = false) :
    solverManagerSolve graph p = Except.error SolveError.noValidGraph ∧
    solvePerformedActions graph p = [] := by
  have h1 : solverManagerSolve graph p = Except.error SolveError.noValidGraph := by
    rcases graph with _ | g
    · rfl
    · have := h g (by simp)
      simp [solverManagerSolve, this]
  exact ⟨h1, by simp [solvePerformedActions, h1]⟩

/-- Witness for C6 with no graph loaded at all. -/
theorem c6_solve_without_graph_witness :
    solverManagerSolve Option.none emptyParams =
      Except.error SolveError.noValidGraph ∧
    solvePerformedActions Option.none emptyParams = [] :=
  c6_solve_without_graph Option.none emptyParams (by simp)

/-- C7: a solve request naming a missing benchmark file, or one whose loaded
graph is invalid, makes `load_benchmark` raise `FileNotFoundError` resp.
`ValueError`, and `handle_solve` emits exactly one `'error'` event — with the
`'Benchmark not found'` message class for the former and the `'Invalid data'`
class for the latter — and no `'complete'` event for that request. -/
theorem c7_benchmark_error_events (name : String) (hname : name ≠ "")
    (g : GraphV) (p : Params) (r : FinalResult) :
    (handleSolve (some name) false g p r =
        [Event.errorEv ErrorKind.benchmarkNotFound] ∧
      load_benchmark false g name = Except.error LoadError.fileNotFound) ∧
    (g.valid = false →
      handleSolve (some name) true g p r =
        [Event.errorEv ErrorKind.invalidData] ∧
      load_benchmark true g name = Except.error LoadError.valueError) := by
  refine ⟨⟨?_, rfl⟩, fun hv => ⟨?_, ?_⟩⟩
  · simp [handleSolve, hname, load_benchmark]
  · simp [handleSolve, hname, load_benchmark, hv]
  · simp [load_benchmark, hv]

/-- Witness for C7 on the concrete name `missing.tsp` and a concrete invalid
graph. -/
theorem c7_benchmark_error_events_witness :
    handleSolve (some missingName) false invalidGraph emptyParams
        emptyFinalResult = [Event.errorEv ErrorKind.benchmarkNotFound] ∧
    handleSolve (some missingName) true invalidGraph emptyParams
        emptyFinalResult = [Event.errorEv ErrorKind.invalidData] :=
  ⟨(c7_benchmark_error_events missingName (by decide) invalidGraph emptyParams
      emptyFinalResult).1.1,
   ((c7_benchmark_error_events missingName (by decide) invalidGraph emptyParams
      emptyFinalResult).2 rfl).1⟩

theorem mod_gap {I a b : Nat} (ha : (a + 1) % I = 0) (hb : (b + 1) % I = 0)
    (hab : a < b) : a + I ≤ b := by
  rcases Nat.eq_zero_or_pos I with hI | hI
  · subst hI
    simp [Nat.mod_zero] at ha
  · obtain ⟨m, hm⟩ := Nat.dvd_of_mod_eq_zero ha
    obtain ⟨n, hn⟩ := Nat.dvd_of_mod_eq_zero hb
    have hmn : m < n := by
      by_contra hc
      push_neg at hc
      have h3 : I * n ≤ I * m := Nat.mul_le_mul_left I hc
      omega
    have h2 : I * (m + 1) ≤ I * n := Nat.mul_le_mul_left I hmn
    have hexp : I * (m + 1) = I * m + I := by ring
    omega

theorem callbackSchedule_mem {I total it : Nat}
    (h : it ∈ callbackSchedule I total) : (it + 1) % I = 0 ∧ it < total := by
  have h1 := List.of_mem_filter h
  have h2 := List.mem_of_mem_filter h
  simp at h1 h2
  exact ⟨h1, h2⟩

theorem callbackSchedule_pairwise (I total : Nat) :
    (callbackSchedule I total).Pairwise (fun a b => a < b ∧ a + I ≤ b) := by
  have base : (callbackSchedule I total).Pairwise (· < ·) :=
    (List.pairwise_lt_range total).filter _
  refine (List.Pairwise.and_mem.mp base).imp ?_
  rintro a b ⟨ha, hb, hab⟩
  exact ⟨hab, mod_gap (callbackSchedule_mem ha).1 (callbackSchedule_mem hb).1 hab⟩

/-- C8: with the 10-iteration interval the backend configures
(`setCallbackInterval(10)`), the progress events delivered during a solve are
in strictly increasing iteration order, successive events are at least 10
iterations apart, and each payload carries the iteration index, the current
global-best distance, the current global-best tour, the convergence-history
snapshot (as a running minimum), the city coordinates, the elapsed time and a
progress percentage — all taken at that event's iteration. -/
theorem c8_progress_event_schedule (total : Nat) (running : Nat → Bool)
    (useConv : Bool) (iterations : Int) (cities : List (ℚ × ℚ))
    (elapsed : Nat → ℚ) (bestD : Nat → ℚ) (bestT : Nat → List Nat)
    (conv : Nat → List ℚ) (N : Nat) (p : Params) :
    (emittedProgress (callbackSchedule 10 total) running useConv iterations
        cities elapsed bestD bestT conv).Pairwise
      (fun a b => a.iteration < b.iteration ∧ a.iteration + 10 ≤ b.iteration) ∧
    (∀ e ∈ emittedProgress (callbackSchedule 10 total) running useConv
        iterations cities elapsed bestD bestT conv,
      e = mkProgressPayload useConv iterations cities (elapsed e.iteration)
          e.iteration (bestD e.iteration) (bestT e.iteration)
          (conv e.iteration) ∧
      e.bestDistance = bestD e.iteration ∧
      e.bestTour = bestT e.iteration ∧
      e.convergenceHistory = runningMin (conv e.iteration) ∧
      e.cities = cities ∧
      running e.iteration = true ∧
      e.iteration ∈ callbackSchedule 10 total) ∧
    Action.setCallbackInterval 10 ∈ colonyCallSequence N p := by
  refine ⟨?_, ?_, ?_⟩
  · rw [emittedProgress]
    refine List.pairwise_map.mpr ?_
    exact ((callbackSchedule_pairwise 10 total).filter running).imp (fun h => h)
  · intro e he
    rw [emittedProgress] at he
    obtain ⟨it, hit, rfl⟩ := List.mem_map.mp he
    exact ⟨rfl, rfl, rfl, rfl, rfl, List.of_mem_filter hit,
      List.mem_of_mem_filter hit⟩
  · rcases hew : p.elitistWeight with _ | w <;>
      rcases hrs : p.rankSize with _ | r <;>
      rcases hc : convergenceThresholdArg p with _ | k <;>
      simp [colonyCallSequence, hew, hrs, hc]

/-- Witness for C8 at a concrete 30-iteration run with an all-true running
flag, plus the backend's configuration of the 10-iteration interval. -/
theorem c8_progress_event_schedule_witness :
    Action.setCallbackInterval 10 ∈ colonyCallSequence 52 emptyParams ∧
    (emittedProgress (callbackSchedule 10 30) (fun _ => true) false 100 []
        (fun _ => 0) (fun _ => 0) (fun _ => []) (fun _ => [])).Pairwise
      (fun a b => a.iteration < b.iteration ∧ a.iteration + 10 ≤ b.iteration) :=
  ⟨(c8_progress_event_schedule 0 (fun _ => true) false 100 [] (fun _ => 0)
      (fun _ => 0) (fun _ => []) (fun _ => []) 52 emptyParams).2.2,
   (c8_progress_event_schedule 30 (fun _ => true) false 100 [] (fun _ => 0)
      (fun _ => 0) (fun _ => []) (fun _ => []) 52 emptyParams).1⟩

theorem catalog_names_nonempty : ∀ e ∈ BENCHMARKS, ¬(e.name = "") := by decide

/-- C9: one reference formula `((solution - optimal) / optimal) * 100`
computes the optimality gap in both the backend and the analysis script; the
backend reports the gap rounded to 2 decimals together with the optimal
distance whenever the benchmark is in the catalog, and `None` for both
whenever it is not. -/
theorem c9_optimality_gap_formula (name : String) (best : ℚ) :
    (∀ e, catalogLookup name = some e →
      backendOptimalAndGap (some name) best =
        (some ((e.optimal : ℚ)),
         some (pyRound 2 (gapFormula best ((e.optimal : ℚ)))))) ∧
    (catalogLookup name = Option.none →
      backendOptimalAndGap (some name) best = (Option.none, Option.none)) ∧
    backendOptimalAndGap Option.none best = (Option.none, Option.none) ∧
    (∀ (results : List ℚ) (optimal : ℚ),
      calcStatsGapAvg results optimal = gapFormula (pyMean results) optimal) ∧
    (∀ (results : List ℚ) (optimal : ℚ),
      calcStatsGapBest results optimal = gapFormula (pyMin results) optimal) := by
  refine ⟨?_, ?_, rfl, fun _ _ => rfl, fun _ _ => rfl⟩
  · intro e he
    have hmem : e ∈ BENCHMARKS := List.mem_of_find?_eq_some he
    have hpred : e.name = name := by
      have h := List.find?_some he
      simpa using h
    have h0 : ¬(name = "") := by
      intro h
      exact catalog_names_nonempty e hmem (hpred.trans h)
    simp [backendOptimalAndGap, h0, he, gapFormula]
  · intro hn
    by_cases h0 : name = ""
    · subst h0
      rfl
    · simp [backendOptimalAndGap, h0, hn]

/-- Witness for C9 at the catalog entry `a280.tsp` with solution distance
equal to the optimum (gap 0), and at a name outside the catalog. -/
theorem c9_optimality_gap_formula_witness :
    backendOptimalAndGap (some a280entry.name) 2579 =
      (some ((a280entry.optimal : ℚ)),
       some (pyRound 2 (gapFormula 2579 ((a280entry.optimal : ℚ))))) ∧
    pyRound 2 (gapFormula 2579 ((a280entry.optimal : ℚ))) = 0 ∧
    backendOptimalAndGap (some missingName) 2579 =
      (Option.none, Option.none) :=
  ⟨(c9_optimality_gap_formula a280entry.name 2579).1 a280entry rfl,
   by norm_num [gapFormula, pyRound, roundHalfEven, a280entry],
   (c9_optimality_gap_formula missingName 2579).2.1 rfl⟩

/-- C10: `/api/benchmarks` returns exactly the catalog entries whose file
exists in the data directory, sorted ascending by city count, with `count`
equal to the length of the returned list. -/
theorem c10_list_benchmarks (fileExists : String → Bool) :
    (listBenchmarks fileExists).2 = (listBenchmarks fileExists).1.length ∧
    (listBenchmarks fileExists).1.Pairwise (fun a b => a.cities ≤ b.cities) ∧
    (listBenchmarks fileExists).1.Perm
      (BENCHMARKS.filter (fun e => fileExists e.name)) ∧
    ∀ e, e ∈ (listBenchmarks fileExists).1 ↔
      e ∈ BENCHMARKS ∧ fileExists e.name = true := by
  refine ⟨rfl, ?_, ?_, ?_⟩
  · have hs := @List.sorted_mergeSort BenchmarkEntry
      (fun a b => decide (a.cities ≤ b.cities))
      (fun a b c hab hbc => by
        simp only [decide_eq_true_eq] at hab hbc ⊢
        exact le_trans hab hbc)
      (fun a b => by simpa using Nat.le_total a.cities b.cities)
      (BENCHMARKS.filter (fun e => fileExists e.name))
    rw [listBenchmarks]
    exact hs.imp (fun h => by simpa using h)
  · rw [listBenchmarks]
    exact List.mergeSort_perm _ _
  · intro e
    rw [listBenchmarks]
    rw [List.Perm.mem_iff (List.mergeSort_perm _ _)]
    simp [List.mem_filter]

end AcoBackend
